import Mathlib

/-!
Shallow embedding of the checkout / inventory and password-reset workflows of
the shop application (`shop/models.py`, `shop/views.py`).

Conventions of the embedding:
* Database tables are lists of records; `objects.create` appends, `save`
  replaces the row with the same key, `delete` / `erase` removes a row.
* `DecimalField(decimal_places=2)` money amounts are integers counted in
  cents (hundredths); Python `Decimal` multiplication by an integer is exact,
  as is integer multiplication here.
* Timestamps are integers (seconds); `timedelta(minutes=10)` is `600`.
* The session cart is an association list `(product_id, quantity)` kept in
  insertion order, matching Python dict iteration order.
* `sha1(...).hexdigest()` is an external library call; it is modelled as an
  abstract deterministic injective encoding of the raw token string.
* Authentication / group-membership gates (`login_required`, `_is_buyer`)
  and template rendering are outside the claims and are not modelled; each
  view is embedded from its first line after those gates.
-/

namespace Shop

/-- `shop.models.Product` (`models.py` lines 15-21): id, owning store,
name, price (cents), `stock_qty`, `is_active`. -/
structure Product where
  id : Nat
  storeId : Nat
  name : String
  price : Int
  stock_qty : Nat
  is_active : Bool
deriving Repr, DecidableEq

/-- `shop.models.Order` (`models.py` lines 27-29): id and buyer. -/
structure Order where
  id : Nat
  buyerId : Nat
deriving Repr, DecidableEq

/-- `shop.models.OrderItem` (`models.py` lines 35-40). -/
structure OrderItem where
  orderId : Nat
  productId : Nat
  storeId : Nat
  quantity : Nat
  unit_price : Int
deriving Repr, DecidableEq

/-- `OrderItem.line_total` (`models.py` lines 42-43):
`self.unit_price * self.quantity`. -/
def OrderItem.line_total (it : OrderItem) : Int :=
  it.unit_price * it.quantity

/-- The cents amount read as a currency value (two fractional digits). -/
def toCurrency (cents : Int) : ℚ :=
  (cents : ℚ) / 100

/-- The persisted store state the checkout engine touches. -/
structure DB where
  products : List Product
  orders : List Order
  orderItems : List OrderItem
deriving Repr, DecidableEq

/-- The session cart: `{product_id: quantity}` in insertion order
(`views.py` `_get_cart`, line 210). -/
abbrev Cart := List (Nat × Nat)

/-- `cart_add` (`views.py` lines 219-226): `cart[key] = cart.get(key, 0) + 1`;
an existing key keeps its position, a new key is appended. -/
def cart_add (cart : Cart) (pid : Nat) : Cart :=
  if cart.any (fun e => e.1 == pid) then
    cart.map (fun e => if e.1 == pid then (e.1, e.2 + 1) else e)
  else
    cart ++ [(pid, 1)]

/-- `cart_remove` (`views.py` lines 229-235): `cart.pop(key)`. -/
def cart_remove (cart : Cart) (pid : Nat) : Cart :=
  cart.filter (fun e => e.1 != pid)

/-- `get_object_or_404(Product, id=..., is_active=True)`
(`views.py` line 267). -/
def findActiveProduct (ps : List Product) (pid : Nat) : Option Product :=
  ps.find? (fun p => p.id == pid && p.is_active)

/-- `product.save()` (`views.py` line 275): write the row back by id. -/
def saveProduct (ps : List Product) (p : Product) : List Product :=
  ps.map (fun q => if q.id == p.id then p else q)

/-- Outcome of the per-line loop of `checkout` (`views.py` lines 266-284):
either every line reserved (`ok`, with the created items), or the loop left
early with the state it had reached at that point. -/
inductive LoopOutcome where
  | ok (db : DB) (items : List OrderItem)
  | fail404 (db : DB) (pid : Nat)
  | failStock (db : DB) (name : String)
deriving Repr, DecidableEq

/-- The database carried by a loop outcome. -/
def LoopOutcome.db : LoopOutcome → DB
  | .ok db _ => db
  | .fail404 db _ => db
  | .failStock db _ => db

/-- The per-line loop of `checkout` (`views.py` lines 266-284).  For each
cart line in iteration order: fetch the active product (404 leaves the loop),
compare `product.stock_qty < qty` (early `return` leaves the loop), else
decrement the stock, save, and create the `OrderItem`.  The second component
records the product ids in the order the loop examined them. -/
def checkoutLoop (db : DB) (orderId : Nat) :
    List (Nat × Nat) → LoopOutcome × List Nat
  | [] => (.ok db [], [])
  | (pid, qty) :: rest =>
    match findActiveProduct db.products pid with
    | none => (.fail404 db pid, [pid])
    | some p =>
      if p.stock_qty < qty then
        (.failStock db p.name, [pid])
      else
        let p2 : Product := { p with stock_qty := p.stock_qty - qty }
        let item : OrderItem :=
          { orderId := orderId, productId := p.id, storeId := p.storeId,
            quantity := qty, unit_price := p.price }
        let db2 : DB := { db with
          products := saveProduct db.products p2,
          orderItems := db.orderItems ++ [item] }
        match checkoutLoop db2 orderId rest with
        | (.ok db3 items, tr) => (.ok db3 (item :: items), pid :: tr)
        | (out, tr) => (out, pid :: tr)

/-- Result rendered by `checkout` (`views.py` lines 252-309). -/
inductive CheckoutResult where
  | success (order : Order) (items : List OrderItem) (grand_total : Int)
  | emptyCart
  | http404 (pid : Nat)
  | insufficientStock (productName : String)
deriving Repr, DecidableEq

/-- Everything observable after one invocation of `checkout`: the store
state, the session cart, the rendered result, and the order in which the
loop examined product ids. -/
structure CheckoutOut where
  db : DB
  cart : Cart
  result : CheckoutResult
  trace : List Nat
deriving Repr, DecidableEq

/-- `checkout` (`views.py` lines 252-309).  Empty cart: render an error,
nothing created.  Otherwise `Order.objects.create` first (line 263), then
the per-line loop; a 404 or an insufficient-stock line leaves the view with
the store state reached so far and the session cart untouched.  Only after
every line succeeds is the cart cleared (line 287) and the invoice grand
total folded up (lines 297-300). -/
def checkout (db : DB) (cart : Cart) (buyerId : Nat) (newOrderId : Nat) :
    CheckoutOut :=
  if cart.isEmpty then
    { db := db, cart := cart, result := .emptyCart, trace := [] }
  else
    let order : Order := { id := newOrderId, buyerId := buyerId }
    let db1 : DB := { db with orders := db.orders ++ [order] }
    match checkoutLoop db1 newOrderId cart with
    | (.ok db2 items, tr) =>
        let grand_total := items.foldl (fun t it => t + it.line_total) 0
        { db := db2, cart := [], result := .success order items grand_total,
          trace := tr }
    | (.fail404 db2 pid, tr) =>
        { db := db2, cart := cart, result := .http404 pid, trace := tr }
    | (.failStock db2 nm, tr) =>
        { db := db2, cart := cart, result := .insufficientStock nm, trace := tr }

/-- The effect on the product table of one successfully reserved cart line
(the `stock_qty -= qty; product.save()` step of `views.py` lines 274-275). -/
def reserveLine (ps : List Product) (l : Nat × Nat) : List Product :=
  match findActiveProduct ps l.1 with
  | some p => saveProduct ps { p with stock_qty := p.stock_qty - l.2 }
  | none => ps

/-!
Interleaving model of the stock reservation (`views.py` lines 267-275).
A checkout worker touches the shared stock counter twice: it reads
`product.stock_qty` when the row is fetched (line 267), and later the
comparison, the in-memory decrement and `product.save()` all use that read
value (lines 270-275) — the write stores `readValue - qty`.  Each worker is
therefore two steps against the shared counter: a `read` step and a
check-and-write step.
-/

/-- One checkout worker's naive reservation for `qty` units: the stock value
it has read, and its outcome once it has run its check (`some true` =
reserved, `some false` = "Not enough stock"). -/
structure NaiveReserve where
  qty : Nat
  readVal : Option Nat
  result : Option Bool
deriving Repr, DecidableEq

/-- Shared stock counter plus two workers racing on it. -/
structure ConcState where
  stock : Nat
  t1 : NaiveReserve
  t2 : NaiveReserve
deriving Repr, DecidableEq

/-- One step of a worker against the shared counter.  First step: read the
current stock into the worker (line 267).  Second step: compare
`readVal < qty` and, if sufficient, write back `readVal - qty`
(lines 270-275); note the write is computed from the worker's read value,
not from the current counter.  A finished worker does nothing. -/
def stepTxn (stock : Nat) (t : NaiveReserve) : Nat × NaiveReserve :=
  match t.readVal, t.result with
  | none, _ => (stock, { t with readVal := some stock })
  | some v, none =>
      if v < t.qty then
        (stock, { t with result := some false })
      else
        (v - t.qty, { t with result := some true })
  | some _, some _ => (stock, t)

/-- Run a schedule: `true` steps worker 1, `false` steps worker 2. -/
def runSchedule (s : ConcState) : List Bool → ConcState
  | [] => s
  | true :: rest =>
      let (st, t1) := stepTxn s.stock s.t1
      runSchedule { s with stock := st, t1 := t1 } rest
  | false :: rest =>
      let (st, t2) := stepTxn s.stock s.t2
      runSchedule { s with stock := st, t2 := t2 } rest

/-- A worker that has not started: no read yet, no outcome. -/
def freshReserve (qty : Nat) : NaiveReserve :=
  { qty := qty, readVal := none, result := none }

/-!
Password-reset workflow (`views.py` lines 341-419, `models.py` lines 55-62).
-/

/-- `django.contrib.auth.models.User`, restricted to what the reset flow
touches: id, email, and the stored credential (`set_password`). -/
structure AuthUser where
  id : Nat
  email : String
  password : String
deriving Repr, DecidableEq

/-- `shop.models.ResetToken` (`models.py` lines 55-59). -/
structure ResetToken where
  userId : Nat
  token_hash : String
  expiry_date : Int
  used : Bool
deriving Repr, DecidableEq

/-- `ResetToken.is_expired` (`models.py` lines 61-62):
`timezone.now() > self.expiry_date` — strict comparison. -/
def ResetToken.is_expired (now : Int) (rt : ResetToken) : Bool :=
  now > rt.expiry_date

/-- `sha1(raw.encode()).hexdigest()` (external library), modelled as an
abstract deterministic injective encoding of the raw token. -/
def hashTok (raw : String) : String :=
  "#" ++ raw

/-- The reset-flow server-side session keys `reset_user_id` and
`reset_token_hash` (`views.py` lines 383-384). -/
structure ResetSession where
  reset_user_id : Option Nat
  reset_token_hash : Option String
deriving Repr, DecidableEq

/-- The persisted state the reset flow touches. -/
structure ResetState where
  users : List AuthUser
  tokens : List ResetToken
deriving Repr, DecidableEq

/-- Response rendered by `forgot_password` (`views.py` lines 341-367). -/
inductive ForgotResponse where
  | errorEmailRequired
  | errorNoUser
  | sent
deriving Repr, DecidableEq

/-- `forgot_password` (`views.py` lines 341-367), POST branch: empty email
errors; `User.objects.get(email=email)` missing renders
"No user with that email."; otherwise a fresh `ResetToken` is created with
`expiry = now + 10 minutes` and "Reset email sent" is rendered.  `rawToken`
stands for the value of `secrets.token_urlsafe(16)`. -/
def forgot_password (users : List AuthUser) (tokens : List ResetToken)
    (now : Int) (rawToken : String) (email : String) :
    List ResetToken × ForgotResponse :=
  if email = "" then
    (tokens, .errorEmailRequired)
  else
    match users.find? (fun u => u.email == email) with
    | none => (tokens, .errorNoUser)
    | some u =>
        (tokens ++ [{ userId := u.id, token_hash := hashTok rawToken,
                      expiry_date := now + 600, used := false }], .sent)

/-- `ResetToken.objects.get(token_hash=h, used=False)` (`views.py`
lines 373, 404); `token_hash` is unique, so the first match is the row. -/
def findToken (tokens : List ResetToken) (h : String) : Option ResetToken :=
  tokens.find? (fun t => t.token_hash == h && t.used == false)

/-- Result rendered by `reset_password_page` (`views.py` lines 370-386). -/
inductive PageResult where
  | invalid
  | valid
deriving Repr, DecidableEq

/-- `reset_password_page` (`views.py` lines 370-386): hash the presented raw
token; look up an unused token with that hash; if none, or the one found is
expired (in which case it is deleted), render invalid; otherwise bind
`(user_id, token_hash)` into the session and render valid. -/
def reset_password_page (tokens : List ResetToken) (sess : ResetSession)
    (now : Int) (token : String) :
    List ResetToken × ResetSession × PageResult :=
  let token_hash := hashTok token
  match findToken tokens token_hash with
  | none => (tokens, sess, .invalid)
  | some rt =>
    if rt.is_expired now then
      (tokens.erase rt, sess, .invalid)
    else
      (tokens,
       { reset_user_id := some rt.userId,
         reset_token_hash := some token_hash }, .valid)

/-- Result rendered by `reset_password_confirm` (`views.py` lines 389-419).
`notFound` is the `Http404` raised by either `get_object_or_404` call. -/
inductive ConfirmResult where
  | passwordMismatch
  | notFound
  | tokenExpired
  | success
deriving Repr, DecidableEq

/-- `user.set_password(...); user.save()` (`views.py` lines 409-410). -/
def set_password (users : List AuthUser) (uid : Nat) (pw : String) :
    List AuthUser :=
  users.map (fun u => if u.id == uid then { u with password := pw } else u)

/-- `rt.used = True; rt.save()` (`views.py` lines 412-413): write the row
back by its unique `token_hash` key. -/
def markUsed (tokens : List ResetToken) (rt : ResetToken) : List ResetToken :=
  tokens.map (fun t =>
    if t.token_hash == rt.token_hash then { t with used := true } else t)

/-- `reset_password_confirm` (`views.py` lines 389-419), POST branch: read
the session binding; `if not password or password != password_conf` render
the mismatch error (binding kept); `get_object_or_404(User, id=user_id)`
(404 when the binding or the user is absent);
`get_object_or_404(ResetToken, token_hash=..., used=False)` likewise; an
expired token is deleted and "Token expired" rendered; otherwise the
credential is set, the token marked used, and the session binding cleared. -/
def reset_password_confirm (st : ResetState) (sess : ResetSession)
    (now : Int) (password password_conf : String) :
    ResetState × ResetSession × ConfirmResult :=
  if password = "" ∨ password ≠ password_conf then
    (st, sess, .passwordMismatch)
  else
    match sess.reset_user_id.bind
        (fun uid => st.users.find? (fun u => u.id == uid)) with
    | none => (st, sess, .notFound)
    | some user =>
      match sess.reset_token_hash.bind (fun h => findToken st.tokens h) with
      | none => (st, sess, .notFound)
      | some rt =>
        if rt.is_expired now then
          ({ st with tokens := st.tokens.erase rt }, sess, .tokenExpired)
        else
          ({ users := set_password st.users user.id password,
             tokens := markUsed st.tokens rt },
           { reset_user_id := none, reset_token_hash := none }, .success)

/-- One full redemption attempt with a raw token, as the flow composes it:
visit `reset_password_page` with a fresh session, then POST
`reset_password_confirm` with whatever session state the page left. -/
def redeemAttempt (st : ResetState) (now : Int)
    (raw password password_conf : String) : ResetState × ConfirmResult :=
  let (tokens1, sess1, _) :=
    reset_password_page st.tokens
      { reset_user_id := none, reset_token_hash := none } now raw
  let (st2, _, res) :=
    reset_password_confirm { st with tokens := tokens1 } sess1 now
      password password_conf
  (st2, res)

/-- Whether a loop outcome is the all-lines-reserved case. -/
def LoopOutcome.isOk : LoopOutcome → Bool
  | .ok _ _ => true
  | .fail404 _ _ => false
  | .failStock _ _ => false

/-- A failing run of the per-line loop keeps the `Order` table as it was and
leaves the product table exactly as produced by the cart lines it had
already reserved: the lines split as `pfx ++ rest` with `rest` holding the
failing line, and the decrements of `pfx` remain applied. -/
theorem checkoutLoop_fail (oid : Nat) :
    ∀ (lines : List (Nat × Nat)) (db : DB) (out : LoopOutcome)
      (tr : List Nat),
    checkoutLoop db oid lines = (out, tr) → out.isOk = false →
    out.db.orders = db.orders ∧
    ∃ pfx rest, lines = pfx ++ rest ∧ rest ≠ [] ∧
      out.db.products = List.foldl reserveLine db.products pfx := by
  intro lines
  induction lines with
  | nil =>
    intro db out tr heq hko
    simp only [checkoutLoop, Prod.mk.injEq] at heq
    obtain ⟨h1, h2⟩ := heq
    subst h1
    cases hko
  | cons l rest ih =>
    intro db out tr heq hko
    obtain ⟨pid, qty⟩ := l
    simp only [checkoutLoop] at heq
    cases hfind : findActiveProduct db.products pid with
    | none =>
      rw [hfind] at heq
      rw [Prod.mk.injEq] at heq
      obtain ⟨h1, h2⟩ := heq
      subst h1
      refine ⟨rfl, [], (pid, qty) :: rest, rfl, by simp, ?_⟩
      rfl
    | some p =>
      rw [hfind] at heq
      simp only at heq
      by_cases hlt : p.stock_qty < qty
      · rw [if_pos hlt] at heq
        rw [Prod.mk.injEq] at heq
        obtain ⟨h1, h2⟩ := heq
        subst h1
        refine ⟨rfl, [], (pid, qty) :: rest, rfl, by simp, ?_⟩
        rfl
      · rw [if_neg hlt] at heq
        rcases hrec : checkoutLoop
            { db with
              products := saveProduct db.products
                { p with stock_qty := p.stock_qty - qty },
              orderItems := db.orderItems ++
                [{ orderId := oid, productId := p.id, storeId := p.storeId,
                   quantity := qty, unit_price := p.price }] }
            oid rest with ⟨out2, tr2⟩
        rw [hrec] at heq
        cases out2 with
        | ok db3 items =>
          rw [Prod.mk.injEq] at heq
          obtain ⟨h1, h2⟩ := heq
          subst h1
          cases hko
        | fail404 db3 pid3 =>
          rw [Prod.mk.injEq] at heq
          obtain ⟨h1, h2⟩ := heq
          subst h1
          obtain ⟨horders, pfx2, rest2, hsplit, hne, hprod⟩ :=
            ih _ _ _ hrec rfl
          refine ⟨horders, (pid, qty) :: pfx2, rest2, by simp [hsplit], hne, ?_⟩
          rw [hprod]
          simp only [List.foldl_cons]
          congr 1
          simp [reserveLine, hfind]
        | failStock db3 nm =>
          rw [Prod.mk.injEq] at heq
          obtain ⟨h1, h2⟩ := heq
          subst h1
          obtain ⟨horders, pfx2, rest2, hsplit, hne, hprod⟩ :=
            ih _ _ _ hrec rfl
          refine ⟨horders, (pid, qty) :: pfx2, rest2, by simp [hsplit], hne, ?_⟩
          rw [hprod]
          simp only [List.foldl_cons]
          congr 1
          simp [reserveLine, hfind]

/-- A fully successful run of the per-line loop examined exactly the cart's
product ids, in the cart's own order. -/
theorem checkoutLoop_ok_trace (oid : Nat) :
    ∀ (lines : List (Nat × Nat)) (db db3 : DB) (items : List OrderItem)
      (tr : List Nat),
    checkoutLoop db oid lines = (.ok db3 items, tr) →
    tr = lines.map Prod.fst := by
  intro lines
  induction lines with
  | nil =>
    intro db db3 items tr heq
    simp only [checkoutLoop, Prod.mk.injEq] at heq
    obtain ⟨h1, h2⟩ := heq
    rw [← h2]
    rfl
  | cons l rest ih =>
    intro db db3 items tr heq
    obtain ⟨pid, qty⟩ := l
    simp only [checkoutLoop] at heq
    cases hfind : findActiveProduct db.products pid with
    | none =>
      rw [hfind] at heq
      rw [Prod.mk.injEq] at heq
      cases heq.1
    | some p =>
      rw [hfind] at heq
      simp only at heq
      by_cases hlt : p.stock_qty < qty
      · rw [if_pos hlt] at heq
        rw [Prod.mk.injEq] at heq
        cases heq.1
      · rw [if_neg hlt] at heq
        rcases hrec : checkoutLoop
            { db with
              products := saveProduct db.products
                { p with stock_qty := p.stock_qty - qty },
              orderItems := db.orderItems ++
                [{ orderId := oid, productId := p.id, storeId := p.storeId,
                   quantity := qty, unit_price := p.price }] }
            oid rest with ⟨out2, tr2⟩
        rw [hrec] at heq
        cases out2 with
        | ok db4 items4 =>
          rw [Prod.mk.injEq] at heq
          obtain ⟨h1, h2⟩ := heq
          rw [← h2]
          simp [ih _ _ _ _ hrec]
        | fail404 db4 pid4 =>
          rw [Prod.mk.injEq] at heq
          cases heq.1
        | failStock db4 nm =>
          rw [Prod.mk.injEq] at heq
          cases heq.1

/-- The invoice fold of `checkout` (`views.py` lines 297-300) computes the
sum of the items' line totals. -/
theorem foldl_line_total (items : List OrderItem) (a : Int) :
    items.foldl (fun t it => t + it.line_total) a =
      a + (items.map OrderItem.line_total).sum := by
  induction items generalizing a with
  | nil => simp
  | cons it rest ih => simp [ih, add_assoc]

/-- Unpacking a successful `findToken`: the row is in the table, carries the
looked-up hash, and is unused. -/
theorem findToken_some (tokens : List ResetToken) (h : String)
    (rt : ResetToken) (hf : findToken tokens h = some rt) :
    rt ∈ tokens ∧ rt.token_hash = h ∧ rt.used = false := by
  have hmem := List.mem_of_find?_eq_some hf
  have hpred := List.find?_some hf
  simp only [Bool.and_eq_true, beq_iff_eq] at hpred
  exact ⟨hmem, hpred.1, hpred.2⟩

/-! Concrete fixtures used by counterexamples and witnesses. -/

/-- Store state with product 1 in stock (5 units at 9.99) and product 2 out
of stock (0 units at 5.00); no orders yet. -/
def dbA : DB :=
  { products := [
      { id := 1, storeId := 10, name := "A", price := 999, stock_qty := 5,
        is_active := true },
      { id := 2, storeId := 10, name := "B", price := 500, stock_qty := 0,
        is_active := true }],
    orders := [], orderItems := [] }

/-- Store state with both products in stock. -/
def dbB : DB :=
  { products := [
      { id := 1, storeId := 10, name := "A", price := 999, stock_qty := 5,
        is_active := true },
      { id := 2, storeId := 10, name := "B", price := 500, stock_qty := 4,
        is_active := true }],
    orders := [], orderItems := [] }

/-- A registered account. -/
def userA : AuthUser :=
  { id := 1, email := "a@x", password := "old" }

/-- C1: the claim states that a checkout in which some line fails leaves no
Order record, no OrderItem record, and no stock decrement observable.  At
`dbA` with cart `[(1,2),(2,1)]` the second line fails on stock, yet the
invocation leaves an Order, an OrderItem for line 1, and product 1's stock
decremented from 5 to 3 — the claim as stated is false. -/
theorem C1_counterexample :
    (checkout dbA [(1, 2), (2, 1)] 7 1).result = .insufficientStock "B" ∧
    (checkout dbA [(1, 2), (2, 1)] 7 1).db.orders =
      [{ id := 1, buyerId := 7 }] ∧
    (checkout dbA [(1, 2), (2, 1)] 7 1).db.orderItems ≠ [] ∧
    (checkout dbA [(1, 2), (2, 1)] 7 1).db.products.map Product.stock_qty =
      [3, 0] ∧
    dbA.orders = [] ∧
    dbA.products.map Product.stock_qty = [5, 0] := by
  decide

/-- C1 (amended): a checkout in which some line fails (product missing or
inactive, or insufficient stock) returns an error but rolls nothing back:
the Order record created at the start of the invocation persists, and the
stock decrements of the lines processed before the failing one remain
applied (the cart splits as `pfx ++ rest` with the failing line in `rest`
and the product table equal to the decrements of `pfx` applied in order). -/
theorem C1_amended (db : DB) (cart : Cart) (b oid : Nat)
    (hfail : (∃ pid, (checkout db cart b oid).result = .http404 pid) ∨
             (∃ nm, (checkout db cart b oid).result = .insufficientStock nm)) :
    (checkout db cart b oid).db.orders =
      db.orders ++ [{ id := oid, buyerId := b }] ∧
    ∃ pfx rest, cart = pfx ++ rest ∧ rest ≠ [] ∧
      (checkout db cart b oid).db.products =
        List.foldl reserveLine db.products pfx := by
  cases hemp : cart.isEmpty with
  | true =>
    exfalso
    rcases hfail with ⟨pid, h⟩ | ⟨nm, h⟩ <;>
      simp [checkout, hemp] at h
  | false =>
    rcases hrec : checkoutLoop
        { db with orders := db.orders ++ [{ id := oid, buyerId := b }] }
        oid cart with ⟨out, tr⟩
    cases out with
    | ok db2 items =>
      exfalso
      rcases hfail with ⟨pid, h⟩ | ⟨nm, h⟩ <;>
        simp [checkout, hemp, hrec] at h
    | fail404 db2 pid2 =>
      obtain ⟨horders, pfx, rest, hsplit, hne, hprod⟩ :=
        checkoutLoop_fail oid cart _ _ _ hrec rfl
      refine ⟨?_, pfx, rest, hsplit, hne, ?_⟩
      · simp only [checkout, hemp, hrec]
        exact horders
      · simp only [checkout, hemp, hrec]
        exact hprod
    | failStock db2 nm =>
      obtain ⟨horders, pfx, rest, hsplit, hne, hprod⟩ :=
        checkoutLoop_fail oid cart _ _ _ hrec rfl
      refine ⟨?_, pfx, rest, hsplit, hne, ?_⟩
      · simp only [checkout, hemp, hrec]
        exact horders
      · simp only [checkout, hemp, hrec]
        exact hprod

/-- C1 (witness): the amended statement at the concrete failing checkout. -/
theorem C1_witness :
    (checkout dbA [(1, 2), (2, 1)] 7 1).db.orders =
      dbA.orders ++ [{ id := 1, buyerId := 7 }] ∧
    ∃ pfx rest, ([(1, 2), (2, 1)] : Cart) = pfx ++ rest ∧ rest ≠ [] ∧
      (checkout dbA [(1, 2), (2, 1)] 7 1).db.products =
        List.foldl reserveLine dbA.products pfx :=
  C1_amended dbA [(1, 2), (2, 1)] 7 1 (Or.inr ⟨"B", by decide⟩)

/-- C2: the claim states that the stock check and decrement are one
indivisible operation, so that of two concurrent checkouts against stock
that can satisfy only one, at most one succeeds.  In the code they are a
separate read and write: under the schedule read,read,write,write both
workers requesting 2 units of 3 available succeed — the claim as stated is
false. -/
theorem C2_counterexample :
    (runSchedule { stock := 3, t1 := freshReserve 2, t2 := freshReserve 2 }
      [true, false, true, false]).t1.result = some true ∧
    (runSchedule { stock := 3, t1 := freshReserve 2, t2 := freshReserve 2 }
      [true, false, true, false]).t2.result = some true ∧
    3 < 2 + 2 := by
  decide

/-- C2 (amended): the reservation is not atomic — the stock check and the
decrement are a separate read and a later write computed from the read
value.  Whenever each worker's requested quantity alone fits the initial
stock, the read,read,write,write interleaving makes both checkouts succeed,
and the counter ends at `S - q2` (the second writer's stale write), even
when `q1 + q2` exceeds `S`. -/
theorem C2_amended (S q1 q2 : Nat) (h1 : q1 ≤ S) (h2 : q2 ≤ S) :
    (runSchedule { stock := S, t1 := freshReserve q1, t2 := freshReserve q2 }
      [true, false, true, false]).t1.result = some true ∧
    (runSchedule { stock := S, t1 := freshReserve q1, t2 := freshReserve q2 }
      [true, false, true, false]).t2.result = some true ∧
    (runSchedule { stock := S, t1 := freshReserve q1, t2 := freshReserve q2 }
      [true, false, true, false]).stock = S - q2 := by
  have h1' : ¬ S < q1 := Nat.not_lt.mpr h1
  have h2' : ¬ S < q2 := Nat.not_lt.mpr h2
  simp [runSchedule, stepTxn, freshReserve, h1', h2']

/-- C2 (witness): the amended statement at stock 3 against two requests
of 2. -/
theorem C2_witness :
    (runSchedule { stock := 3, t1 := freshReserve 2, t2 := freshReserve 2 }
      [true, false, true, false]).t1.result = some true ∧
    (runSchedule { stock := 3, t1 := freshReserve 2, t2 := freshReserve 2 }
      [true, false, true, false]).t2.result = some true ∧
    (runSchedule { stock := 3, t1 := freshReserve 2, t2 := freshReserve 2 }
      [true, false, true, false]).stock = 3 - 2 :=
  C2_amended 3 2 2 (by decide) (by decide)

/-- C3: the claim states cart lines are processed in ascending product_id
order regardless of insertion order.  Adding product 2 and then product 1
to the cart, the checkout loop examines them as `[2, 1]` — insertion order,
not ascending order — so the claim as stated is false. -/
theorem C3_counterexample :
    (checkout dbB (cart_add (cart_add [] 2) 1) 7 1).trace = [2, 1] ∧
    ¬ List.Chain' (· ≤ ·)
        (checkout dbB (cart_add (cart_add [] 2) 1) 7 1).trace := by
  have h : (checkout dbB (cart_add (cart_add [] 2) 1) 7 1).trace = [2, 1] := by
    decide
  refine ⟨h, ?_⟩
  rw [h]
  simp [List.chain'_cons]

/-- C3 (amended): cart lines are processed in the cart's insertion order:
on a successful checkout the sequence of product ids the loop examined is
exactly the cart's key sequence, in the order the keys entered the cart. -/
theorem C3_amended (db : DB) (cart : Cart) (b oid : Nat)
    (o : Order) (items : List OrderItem) (gt : Int)
    (h : (checkout db cart b oid).result = .success o items gt) :
    (checkout db cart b oid).trace = cart.map Prod.fst := by
  cases hemp : cart.isEmpty with
  | true =>
    simp [checkout, hemp] at h
  | false =>
    rcases hrec : checkoutLoop
        { db with orders := db.orders ++ [{ id := oid, buyerId := b }] }
        oid cart with ⟨out, tr⟩
    cases out with
    | ok db2 its =>
      simp only [checkout, hemp, hrec]
      exact checkoutLoop_ok_trace oid cart _ _ _ _ hrec
    | fail404 db2 pid2 =>
      simp [checkout, hemp, hrec] at h
    | failStock db2 nm =>
      simp [checkout, hemp, hrec] at h

/-- C3 (witness): the amended statement at a concrete successful checkout. -/
theorem C3_witness :
    (checkout dbB [(2, 1), (1, 2)] 7 1).trace =
      ([(2, 1), (1, 2)] : Cart).map Prod.fst :=
  C3_amended dbB [(2, 1), (1, 2)] 7 1 { id := 1, buyerId := 7 }
    [{ orderId := 1, productId := 2, storeId := 10, quantity := 1,
       unit_price := 500 },
     { orderId := 1, productId := 1, storeId := 10, quantity := 2,
       unit_price := 999 }] 2498 (by decide)

/-- C4: the claim states the forgot-password response is indistinguishable
between a matching and a non-matching non-empty email.  With one registered
account, the matching email renders the sent message while the unknown one
renders "No user with that email." — the claim as stated is false. -/
theorem C4_counterexample :
    ("a@x" : String) ≠ "" ∧ ("b@x" : String) ≠ "" ∧
    (forgot_password [userA] [] 0 "r1" "a@x").2 = .sent ∧
    (forgot_password [userA] [] 0 "r1" "b@x").2 = .errorNoUser ∧
    (forgot_password [userA] [] 0 "r1" "a@x").2 ≠
      (forgot_password [userA] [] 0 "r1" "b@x").2 := by
  decide

/-- C4 (amended): the forgot-password response reveals whether the email
matched: for every non-empty email, an email matching no user renders the
"No user with that email." error and an email matching a user renders the
sent message — the two outward responses differ. -/
theorem C4_amended :
    (∀ (users : List AuthUser) (tokens : List ResetToken) (now : Int)
        (raw email : String), email ≠ "" →
      users.find? (fun u => u.email == email) = none →
      (forgot_password users tokens now raw email).2 = .errorNoUser) ∧
    (∀ (users : List AuthUser) (tokens : List ResetToken) (now : Int)
        (raw email : String) (u : AuthUser), email ≠ "" →
      users.find? (fun u => u.email == email) = some u →
      (forgot_password users tokens now raw email).2 = .sent) := by
  constructor
  · intro users tokens now raw email he hf
    simp [forgot_password, he, hf]
  · intro users tokens now raw email u he hf
    simp [forgot_password, he, hf]

/-- C4 (witness): the amended statement at one registered account. -/
theorem C4_witness :
    (forgot_password [userA] [] 0 "r1" "b@x").2 = .errorNoUser ∧
    (forgot_password [userA] [] 0 "r1" "a@x").2 = .sent :=
  ⟨C4_amended.1 [userA] [] 0 "r1" "b@x" (by decide) (by decide),
   C4_amended.2 [userA] [] 0 "r1" "a@x" userA (by decide) (by decide)⟩

/-- An issued token for `userA`: hash of raw value `r1`, expiry 100,
unused. -/
def tokA : ResetToken :=
  { userId := 1, token_hash := hashTok "r1", expiry_date := 100,
    used := false }

/-- Reset-flow state: one account, one live token. -/
def stA : ResetState :=
  { users := [userA], tokens := [tokA] }

/-- C5: the claim states a redemption attempted exactly at the expiry
timestamp reports TokenExpired.  `is_expired` is the strict comparison
`now > expiry_date`, so a full redemption attempt at `now = 100` against a
token expiring at 100 succeeds — the claim as stated is false. -/
theorem C5_counterexample :
    tokA.expiry_date = 100 ∧
    (redeemAttempt stA 100 "r1" "new" "new").2 = .success ∧
    ConfirmResult.success ≠ .tokenExpired := by
  decide

/-- C5 (amended): a redemption attempted strictly after the expiry
timestamp reports TokenExpired, and one attempted at or before the expiry
timestamp succeeds if the token is otherwise valid (unused, hash bound in
the session, user exists, matching non-empty passwords). -/
theorem C5_amended :
    (∀ (st : ResetState) (sess : ResetSession) (now : Int)
        (pw conf : String) (uid : Nat) (h : String) (u : AuthUser)
        (rt : ResetToken),
      sess.reset_user_id = some uid → sess.reset_token_hash = some h →
      pw ≠ "" → pw = conf →
      st.users.find? (fun x => x.id == uid) = some u →
      findToken st.tokens h = some rt →
      now > rt.expiry_date →
      (reset_password_confirm st sess now pw conf).2.2 = .tokenExpired) ∧
    (∀ (st : ResetState) (sess : ResetSession) (now : Int)
        (pw conf : String) (uid : Nat) (h : String) (u : AuthUser)
        (rt : ResetToken),
      sess.reset_user_id = some uid → sess.reset_token_hash = some h →
      pw ≠ "" → pw = conf →
      st.users.find? (fun x => x.id == uid) = some u →
      findToken st.tokens h = some rt →
      now ≤ rt.expiry_date →
      (reset_password_confirm st sess now pw conf).2.2 = .success) := by
  constructor
  · intro st sess now pw conf uid h u rt huid hh hne heq hfu hft hgt
    subst heq
    have hexp : rt.is_expired now = true := by
      simp [ResetToken.is_expired, hgt]
    simp [reset_password_confirm, hne, huid, hh, hfu, hft, hexp]
  · intro st sess now pw conf uid h u rt huid hh hne heq hfu hft hle
    subst heq
    have hexp : rt.is_expired now = false := by
      simp [ResetToken.is_expired]
      omega
    simp [reset_password_confirm, hne, huid, hh, hfu, hft, hexp]

/-- C5 (witness): the amended statement one tick after and exactly at the
expiry of `tokA`. -/
theorem C5_witness :
    (reset_password_confirm stA
      { reset_user_id := some 1, reset_token_hash := some (hashTok "r1") }
      101 "new" "new").2.2 = .tokenExpired ∧
    (reset_password_confirm stA
      { reset_user_id := some 1, reset_token_hash := some (hashTok "r1") }
      100 "new" "new").2.2 = .success :=
  ⟨C5_amended.1 stA
      { reset_user_id := some 1, reset_token_hash := some (hashTok "r1") }
      101 "new" "new" 1 (hashTok "r1") userA tokA rfl rfl (by decide) rfl
      (by decide) (by decide) (by decide),
   C5_amended.2 stA
      { reset_user_id := some 1, reset_token_hash := some (hashTok "r1") }
      100 "new" "new" 1 (hashTok "r1") userA tokA rfl rfl (by decide) rfl
      (by decide) (by decide) (by decide)⟩

/-- Completing the redemption with no session binding never succeeds and
never changes state: the password check or one of the two 404 lookups
rejects the request first. -/
theorem confirm_no_binding (stx : ResetState) (now : Int)
    (pw conf : String) :
    (reset_password_confirm stx
        { reset_user_id := none, reset_token_hash := none }
        now pw conf).2.2 ≠ .success ∧
    (reset_password_confirm stx
        { reset_user_id := none, reset_token_hash := none }
        now pw conf).1 = stx := by
  by_cases hpw : pw = "" ∨ pw ≠ conf
  · simp [reset_password_confirm, hpw]
  · simp [reset_password_confirm, hpw]

/-- C6: a reset token is single-use.  First conjunct: a successful
completion of the redemption found the bound token unused and leaves every
token carrying that hash marked used.  Second conjunct: for a token that is
already used or past expiry, a full redemption attempt presenting the same
raw token (page visit with a fresh session, then the confirm POST) is
rejected and leaves every user's credential unchanged. -/
theorem C6_single_use :
    (∀ (st : ResetState) (sess : ResetSession) (now : Int)
        (pw conf h : String) (st2 : ResetState) (sess2 : ResetSession),
      sess.reset_token_hash = some h →
      reset_password_confirm st sess now pw conf = (st2, sess2, .success) →
      ∃ rt, findToken st.tokens h = some rt ∧ rt.used = false ∧
        ∀ t ∈ st2.tokens, t.token_hash = h → t.used = true) ∧
    (∀ (st : ResetState) (now : Int) (raw pw conf : String)
        (t : ResetToken),
      t ∈ st.tokens → t.token_hash = hashTok raw →
      (t.used = true ∨ t.is_expired now = true) →
      (∀ t2 ∈ st.tokens, t2.token_hash = hashTok raw → t2 = t) →
      (redeemAttempt st now raw pw conf).2 ≠ .success ∧
      (redeemAttempt st now raw pw conf).1.users = st.users) := by
  constructor
  · intro st sess now pw conf h st2 sess2 hh heq
    by_cases hpw : pw = "" ∨ pw ≠ conf
    · simp [reset_password_confirm, hpw, Prod.ext_iff] at heq
    · rcases hu : sess.reset_user_id.bind
          (fun uid => st.users.find? (fun u => u.id == uid)) with _ | user
      · simp [reset_password_confirm, hpw, hu, Prod.ext_iff] at heq
      · rcases hft : findToken st.tokens h with _ | rt
        · simp [reset_password_confirm, hpw, hu, hh, hft, Prod.ext_iff] at heq
        · by_cases hexp : rt.is_expired now = true
          · simp [reset_password_confirm, hpw, hu, hh, hft, hexp,
              Prod.ext_iff] at heq
          · obtain ⟨hmem, hhash, hused⟩ := findToken_some st.tokens h rt hft
            have hred : reset_password_confirm st sess now pw conf =
                ({ users := set_password st.users user.id pw,
                   tokens := markUsed st.tokens rt },
                 { reset_user_id := none, reset_token_hash := none },
                 .success) := by
              simp [reset_password_confirm, hpw, hu, hh, hft, hexp]
            rw [hred, Prod.mk.injEq, Prod.mk.injEq] at heq
            refine ⟨rt, rfl, hused, ?_⟩
            have hst2 : st2.tokens = markUsed st.tokens rt := by
              rw [← heq.1]
            intro t ht hthash
            rw [hst2] at ht
            simp only [markUsed, List.mem_map] at ht
            obtain ⟨t0, ht0, hmap⟩ := ht
            by_cases hcase : (t0.token_hash == rt.token_hash) = true
            · rw [if_pos hcase] at hmap
              rw [← hmap]
            · rw [if_neg hcase] at hmap
              exfalso
              apply hcase
              rw [hmap, hthash, hhash]
              simp
  · intro st now raw pw conf t hmem hhash hdead huniq
    rcases hfind : findToken st.tokens (hashTok raw) with _ | rt
    · have hred : (redeemAttempt st now raw pw conf) =
          ((reset_password_confirm { st with tokens := st.tokens }
            { reset_user_id := none, reset_token_hash := none }
            now pw conf).1,
           (reset_password_confirm { st with tokens := st.tokens }
            { reset_user_id := none, reset_token_hash := none }
            now pw conf).2.2) := by
        simp [redeemAttempt, reset_password_page, hfind]
      rw [hred]
      exact ⟨(confirm_no_binding _ now pw conf).1,
        by rw [(confirm_no_binding _ now pw conf).2]⟩
    · obtain ⟨hmem2, hhash2, hused2⟩ :=
        findToken_some st.tokens (hashTok raw) rt hfind
      have hrt : rt = t := huniq rt hmem2 hhash2
      have hexp : rt.is_expired now = true := by
        rcases hdead with hd | hd
        · exfalso
          rw [hrt] at hused2
          rw [hused2] at hd
          cases hd
        · rw [hrt]
          exact hd
      have hred : (redeemAttempt st now raw pw conf) =
          ((reset_password_confirm
              { st with tokens := st.tokens.erase rt }
              { reset_user_id := none, reset_token_hash := none }
              now pw conf).1,
           (reset_password_confirm
              { st with tokens := st.tokens.erase rt }
              { reset_user_id := none, reset_token_hash := none }
              now pw conf).2.2) := by
        simp [redeemAttempt, reset_password_page, hfind, hexp]
      rw [hred]
      exact ⟨(confirm_no_binding _ now pw conf).1,
        by rw [(confirm_no_binding _ now pw conf).2]⟩

/-- C6 (witness): both conjuncts at concrete inputs — a successful
redemption of `tokA`, and a rejected reattempt against an already-used
token. -/
theorem C6_witness :
    (∃ rt, findToken stA.tokens (hashTok "r1") = some rt ∧
      rt.used = false ∧
      ∀ t ∈ ({ users := [{ id := 1, email := "a@x", password := "new" }],
               tokens := [{ userId := 1, token_hash := hashTok "r1",
                            expiry_date := 100, used := true }] } :
              ResetState).tokens,
        t.token_hash = hashTok "r1" → t.used = true) ∧
    ((redeemAttempt
        { users := [userA],
          tokens := [{ userId := 1, token_hash := hashTok "r1",
                       expiry_date := 100, used := true }] }
        50 "r1" "new" "new").2 ≠ .success ∧
     (redeemAttempt
        { users := [userA],
          tokens := [{ userId := 1, token_hash := hashTok "r1",
                       expiry_date := 100, used := true }] }
        50 "r1" "new" "new").1.users = [userA]) :=
  ⟨C6_single_use.1 stA
      { reset_user_id := some 1, reset_token_hash := some (hashTok "r1") }
      50 "new" "new" (hashTok "r1")
      { users := [{ id := 1, email := "a@x", password := "new" }],
        tokens := [{ userId := 1, token_hash := hashTok "r1",
                     expiry_date := 100, used := true }] }
      { reset_user_id := none, reset_token_hash := none }
      rfl (by decide),
   C6_single_use.2
      { users := [userA],
        tokens := [{ userId := 1, token_hash := hashTok "r1",
                     expiry_date := 100, used := true }] }
      50 "r1" "new" "new"
      { userId := 1, token_hash := hashTok "r1", expiry_date := 100,
        used := true }
      (by decide) (by decide) (Or.inl rfl) (by decide)⟩

/-- The token table after two forgot-password requests for the same
account. -/
def twoTokens : List ResetToken :=
  (forgot_password [userA]
    (forgot_password [userA] [] 0 "r1" "a@x").1 0 "r2" "a@x").1

/-- C7: the claim states that at most one live (unused, unexpired) reset
token is usable for a redemption per user.  After two forgot-password
requests for the same account, the token table holds two live tokens for
that user and the reset page accepts either raw token — the claim as stated
is false. -/
theorem C7_counterexample :
    (twoTokens.filter (fun t => t.userId == userA.id && t.used == false &&
      ! t.is_expired 0)).length = 2 ∧
    (reset_password_page twoTokens
      { reset_user_id := none, reset_token_hash := none } 0 "r1").2.2 =
      .valid ∧
    (reset_password_page twoTokens
      { reset_user_id := none, reset_token_hash := none } 0 "r2").2.2 =
      .valid := by
  decide

/-- C7 (amended): a forgot-password request for a registered email appends
a fresh live token and leaves every previously issued token untouched, so
nothing bounds the number of live tokens usable for a redemption on one
account. -/
theorem C7_amended (users : List AuthUser) (tokens : List ResetToken)
    (now : Int) (raw email : String) (u : AuthUser)
    (he : email ≠ "")
    (hf : users.find? (fun x => x.email == email) = some u) :
    (forgot_password users tokens now raw email).1 =
      tokens ++ [{ userId := u.id, token_hash := hashTok raw,
                   expiry_date := now + 600, used := false }] := by
  simp [forgot_password, he, hf]

/-- C7 (witness): the amended statement at the second issue request. -/
theorem C7_witness :
    (forgot_password [userA]
        (forgot_password [userA] [] 0 "r1" "a@x").1 0 "r2" "a@x").1 =
      (forgot_password [userA] [] 0 "r1" "a@x").1 ++
        [{ userId := userA.id, token_hash := hashTok "r2",
           expiry_date := 600, used := false }] :=
  C7_amended [userA] (forgot_password [userA] [] 0 "r1" "a@x").1 0 "r2"
    "a@x" userA (by decide) (by decide)

/-- C8: every OrderItem's line total is exactly unit price times quantity —
both over the cents integers and read as currency values with two
fractional digits — and the grand total a successful checkout reports on
the invoice equals the sum of its items' line totals. -/
theorem C8_totals :
    (∀ it : OrderItem, it.line_total = it.unit_price * it.quantity ∧
      toCurrency it.line_total = toCurrency it.unit_price * it.quantity) ∧
    (∀ (db : DB) (cart : Cart) (b oid : Nat) (o : Order)
        (items : List OrderItem) (gt : Int),
      (checkout db cart b oid).result = .success o items gt →
      gt = (items.map OrderItem.line_total).sum) := by
  constructor
  · intro it
    refine ⟨rfl, ?_⟩
    simp only [toCurrency, OrderItem.line_total]
    push_cast
    ring
  · intro db cart b oid o items gt h
    cases hemp : cart.isEmpty with
    | true => simp [checkout, hemp] at h
    | false =>
      rcases hrec : checkoutLoop
          { db with orders := db.orders ++ [{ id := oid, buyerId := b }] }
          oid cart with ⟨out, tr⟩
      cases out with
      | ok db2 its =>
        have hck : checkout db cart b oid =
            { db := db2, cart := [],
              result := .success { id := oid, buyerId := b } its
                (its.foldl (fun t it => t + it.line_total) 0),
              trace := tr } := by
          simp [checkout, hemp, hrec]
        rw [hck] at h
        simp only [CheckoutResult.success.injEq] at h
        rw [← h.2.2, ← h.2.1, foldl_line_total]
        simp
      | fail404 db2 pid2 => simp [checkout, hemp, hrec] at h
      | failStock db2 nm => simp [checkout, hemp, hrec] at h

/-- C8 (witness): the grand-total statement at a concrete successful
checkout. -/
theorem C8_witness :
    (1998 : Int) =
      ([{ orderId := 1, productId := 1, storeId := 10, quantity := 2,
          unit_price := 999 }].map OrderItem.line_total).sum :=
  C8_totals.2 dbB [(1, 2)] 7 1 { id := 1, buyerId := 7 }
    [{ orderId := 1, productId := 1, storeId := 10, quantity := 2,
       unit_price := 999 }] 1998 (by decide)

/-- C9: the session cart is cleared exactly by a successful checkout: a
checkout that succeeds leaves the session cart empty, and a checkout that
aborts (empty cart, missing/inactive product, or insufficient stock) leaves
the session cart exactly as it was. -/
theorem C9_cart_frame :
    (∀ (db : DB) (cart : Cart) (b oid : Nat) (o : Order)
        (items : List OrderItem) (gt : Int),
      (checkout db cart b oid).result = .success o items gt →
      (checkout db cart b oid).cart = []) ∧
    (∀ (db : DB) (cart : Cart) (b oid : Nat),
      ((checkout db cart b oid).result = .emptyCart ∨
       (∃ pid, (checkout db cart b oid).result = .http404 pid) ∨
       (∃ nm, (checkout db cart b oid).result = .insufficientStock nm)) →
      (checkout db cart b oid).cart = cart) := by
  constructor
  · intro db cart b oid o items gt h
    cases hemp : cart.isEmpty with
    | true => simp [checkout, hemp] at h
    | false =>
      rcases hrec : checkoutLoop
          { db with orders := db.orders ++ [{ id := oid, buyerId := b }] }
          oid cart with ⟨out, tr⟩
      cases out with
      | ok db2 its => simp [checkout, hemp, hrec]
      | fail404 db2 pid2 => simp [checkout, hemp, hrec] at h
      | failStock db2 nm => simp [checkout, hemp, hrec] at h
  · intro db cart b oid h
    cases hemp : cart.isEmpty with
    | true => simp [checkout, hemp]
    | false =>
      rcases hrec : checkoutLoop
          { db with orders := db.orders ++ [{ id := oid, buyerId := b }] }
          oid cart with ⟨out, tr⟩
      cases out with
      | ok db2 its =>
        exfalso
        rcases h with h | ⟨pid, h⟩ | ⟨nm, h⟩ <;>
          simp [checkout, hemp, hrec] at h
      | fail404 db2 pid2 => simp [checkout, hemp, hrec]
      | failStock db2 nm => simp [checkout, hemp, hrec]

/-- C9 (witness): both parts at concrete checkouts — one successful, one
failing on stock. -/
theorem C9_witness :
    (checkout dbB [(1, 2)] 7 1).cart = [] ∧
    (checkout dbA [(1, 2), (2, 1)] 7 1).cart = [(1, 2), (2, 1)] :=
  ⟨C9_cart_frame.1 dbB [(1, 2)] 7 1 { id := 1, buyerId := 7 }
      [{ orderId := 1, productId := 1, storeId := 10, quantity := 2,
         unit_price := 999 }] 1998 (by decide),
   C9_cart_frame.2 dbA [(1, 2), (2, 1)] 7 1
      (Or.inr (Or.inr ⟨"B", by decide⟩))⟩

/-- C10: the claim states that with matching passwords and no session
binding the confirm step fails with a not-found error.  With empty —
hence equal — password fields and no binding, the code reports the
password-mismatch error instead (`if not password or ...` fires first), so
the claim as stated is false. -/
theorem C10_counterexample :
    ("" : String) = "" ∧
    (reset_password_confirm { users := [], tokens := [] }
      { reset_user_id := none, reset_token_hash := none }
      0 "" "").2.2 = .passwordMismatch ∧
    ConfirmResult.passwordMismatch ≠ .notFound := by
  decide

/-- C10 (amended): the password check runs before the session binding is
resolved: an empty or mismatched password pair reports the mismatch error
with all state unchanged even when no binding exists, and matching
non-empty passwords with a missing binding component (no bound user id or
no bound token hash) fail with a not-found error, changing no user's
credential and no token. -/
theorem C10_amended :
    (∀ (st : ResetState) (sess : ResetSession) (now : Int)
        (pw conf : String), (pw = "" ∨ pw ≠ conf) →
      reset_password_confirm st sess now pw conf =
        (st, sess, .passwordMismatch)) ∧
    (∀ (st : ResetState) (sess : ResetSession) (now : Int)
        (pw conf : String), pw ≠ "" → pw = conf →
      (sess.reset_user_id = none ∨ sess.reset_token_hash = none) →
      (reset_password_confirm st sess now pw conf).2.2 = .notFound ∧
      (reset_password_confirm st sess now pw conf).1 = st) := by
  constructor
  · intro st sess now pw conf hpw
    simp [reset_password_confirm, hpw]
  · intro st sess now pw conf hne heq hbind
    subst heq
    rcases hbind with h | h
    · simp [reset_password_confirm, hne, h]
    · rcases hu : sess.reset_user_id.bind
          (fun uid => st.users.find? (fun u => u.id == uid)) with _ | user
      · simp [reset_password_confirm, hne, hu]
      · simp [reset_password_confirm, hne, hu, h]

/-- C10 (witness): both amended parts at concrete requests. -/
theorem C10_witness :
    reset_password_confirm stA
        { reset_user_id := some 1, reset_token_hash := none } 0 "a" "b" =
      (stA, { reset_user_id := some 1, reset_token_hash := none },
       .passwordMismatch) ∧
    ((reset_password_confirm stA
        { reset_user_id := some 1, reset_token_hash := none }
        0 "a" "a").2.2 = .notFound ∧
     (reset_password_confirm stA
        { reset_user_id := some 1, reset_token_hash := none }
        0 "a" "a").1 = stA) :=
  ⟨C10_amended.1 stA
      { reset_user_id := some 1, reset_token_hash := none } 0 "a" "b"
      (Or.inr (by decide)),
   C10_amended.2 stA
      { reset_user_id := some 1, reset_token_hash := none } 0 "a" "a"
      (by decide) rfl (Or.inr rfl)⟩

end Shop
